import Mathlib

/-!
Verification development for the restaurant reservation agent.

Shallow embedding of the Python source under `app/`:
  * `app/storage/file_storage.py`  (FileStorage: restaurants / users / reservations)
  * `app/agent/tools.py`           (ToolRegistry: the eight action handlers)
  * `app/agent/recommender.py`     (RestaurantRecommender)
  * `app/agent/core.py`            (Agent: directive extraction, dispatch, rendering)

JSON values are embedded with integers and decimals as rationals, strings as
Lean strings.  Fallible code is embedded with `Option` / `Except`; a Python
exception that escapes a handler is an `Except.error` carrying the message.
-/

/-! ## Data model (shapes of the JSON records handled by FileStorage) -/

/-- Preference bag.  Python passes preference dictionaries around untyped; the
keys actually read anywhere in the source are `cuisine`, `cuisine_preference`,
`location`, `price_range`, `occasion` and `dietary_restrictions`
(`tools.py` lines 182-185, `recommender.py` lines 44-50, 77-84).  A field of
`none` embeds an absent key. -/
structure Preferences where
  cuisine : Option String := none
  cuisine_preference : Option String := none
  location : Option String := none
  price_range : Option String := none
  occasion : Option String := none
  dietary_restrictions : Option (List String) := none
deriving Repr, DecidableEq

/-- Python dict truthiness for a preference bag: a dict is truthy iff it has at
least one key, independent of the values. -/
def Preferences.truthy (p : Preferences) : Bool :=
  p.cuisine.isSome || p.cuisine_preference.isSome || p.location.isSome ||
  p.price_range.isSome || p.occasion.isSome || p.dietary_restrictions.isSome

/-- Restaurant record as created by `populate_db.py` / `add_restaurant`.
The wall-clock `created_at` field is omitted: no code path reads it.
Capacity is a natural number (the data model fixes it as a positive integer
set by the administrative add operation; requests never write it). -/
structure Restaurant where
  id : Int
  name : String := ""
  cuisine : String := ""
  location : String := ""
  address : String := ""
  capacity : Nat := 0
  opening_time : String := ""
  closing_time : String := ""
  price_range : String := ""
  rating : ℚ := 0
  features : List (String × Bool) := []
  menu : List (String × List (String × ℚ)) := []
deriving Repr, DecidableEq

/-- User record (`add_user`).  `created_at` omitted, never read. -/
structure User where
  id : Int
  name : String := ""
  email : String := ""
  phone : String := ""
  preferences : Option Preferences := none
deriving Repr, DecidableEq

/-- Reservation record as stored by `add_reservation`.  `created_at` omitted,
never read.  Party size is an integer: the handlers never validate it, so a
request can store any JSON integer here. -/
structure Reservation where
  id : Int
  restaurant_id : Int
  user_id : Int
  date : String
  time : String
  party_size : Int
  status : String
  special_requests : String := ""
deriving Repr, DecidableEq

/-- Contents of the three JSON files managed by `FileStorage`.  Every
storage method rereads the file, so the state is just the three lists. -/
structure FileStorageState where
  restaurants : List Restaurant := []
  users : List User := []
  reservations : List Reservation := []
deriving Repr, DecidableEq

/-- FileStorage.get_restaurant: first record with the given id, else None. -/
def get_restaurant (st : FileStorageState) (restaurant_id : Int) : Option Restaurant :=
  st.restaurants.find? (fun r => r.id == restaurant_id)

/-- FileStorage.get_user: first record with the given id, else None. -/
def get_user (st : FileStorageState) (user_id : Int) : Option User :=
  st.users.find? (fun u => u.id == user_id)

/-- Python `max(xs, default=0)` over a list of integers. -/
def maxDefaultZero : List Int → Int
  | [] => 0
  | x :: xs => xs.foldl max x

/-- Identifier assigned by `add_reservation`: `max(ids, default=0) + 1`. -/
def nextReservationId (st : FileStorageState) : Int :=
  maxDefaultZero (st.reservations.map (·.id)) + 1

/-- FileStorage.update_reservation specialised to the only call site
(`tools.py` line 202): merge `\x7b"status": "cancelled"\x7d` into the first
record whose id matches, leaving later duplicates untouched.  The boolean
reports whether a record was found (the Python method returns the updated
record or None; the caller discards it). -/
def cancelFirst (reservation_id : Int) : List Reservation → List Reservation × Bool
  | [] => ([], false)
  | r :: rs =>
    if r.id == reservation_id then
      ({ r with status := "cancelled" } :: rs, true)
    else
      let (rs2, b) := cancelFirst reservation_id rs
      (r :: rs2, b)

/-! ## Model of `datetime.strptime(f"{date} {time}", "%Y-%m-%d %H:%M")`

The handlers only branch on whether the parse raises, so the model is a
boolean validity check: four-digit year (at least 0001), one-or-two-digit
month 1-12 and day valid for the month (leap years per the Gregorian rule),
one-or-two-digit hour 0-23 and minute 0-59, with the literal separators and
nothing else. -/

def allDigits (cs : List Char) : Bool := cs.all Char.isDigit

def digitsToNat (cs : List Char) : Nat :=
  cs.foldl (fun acc c => acc * 10 + (c.toNat - 48)) 0

def isLeapYear (y : Nat) : Bool :=
  (y % 4 == 0 && y % 100 != 0) || (y % 400 == 0)

def daysInMonth (y m : Nat) : Nat :=
  if m == 2 then (if isLeapYear y then 29 else 28)
  else if m == 4 || m == 6 || m == 9 || m == 11 then 30
  else 31

/-- Split a character list at the first occurrence of a separator char. -/
def splitAtChar (sep : Char) : List Char → Option (List Char × List Char)
  | [] => none
  | c :: cs =>
    if c == sep then some ([], cs)
    else match splitAtChar sep cs with
      | some (a, b) => some (c :: a, b)
      | none => none

/-- Validity of the date half against `%Y-%m-%d`. -/
def parseableDate (date : String) : Bool :=
  match splitAtChar '-' date.toList with
  | some (ys, rest) =>
    match splitAtChar '-' rest with
    | some (ms, ds) =>
      allDigits ys && allDigits ms && allDigits ds &&
      ys.length == 4 && (ms.length == 1 || ms.length == 2) &&
      (ds.length == 1 || ds.length == 2) &&
      1 ≤ digitsToNat ys &&
      1 ≤ digitsToNat ms && digitsToNat ms ≤ 12 &&
      1 ≤ digitsToNat ds && digitsToNat ds ≤ daysInMonth (digitsToNat ys) (digitsToNat ms)
    | none => false
  | none => false

/-- Validity of the time half against `%H:%M`. -/
def parseableTime (time : String) : Bool :=
  match splitAtChar ':' time.toList with
  | some (hs, ms) =>
    allDigits hs && allDigits ms &&
    (hs.length == 1 || hs.length == 2) && (ms.length == 1 || ms.length == 2) &&
    digitsToNat hs ≤ 23 && digitsToNat ms ≤ 59
  | none => false

/-- Combined check used by `check_availability` (`tools.py` lines 109-112). -/
def parseableDateTime (date time : String) : Bool :=
  parseableDate date && parseableTime time

/-! ## Character-level models of the Python string methods used

These mirror `str.lower`, `str.strip` and `str.split` (with a nonempty
separator).  They work on character lists so that every theorem can be
checked by kernel evaluation. -/

/-- Python `str.lower` (the source only lowercases ASCII tags). -/
def pyLower (s : String) : String := String.mk (s.toList.map Char.toLower)

/-- Whitespace stripped by Python `str.strip`. -/
def isPyWs (c : Char) : Bool :=
  c == ' ' || c == '\t' || c == '\n' || c == '\r' || c == '\x0c' || c == '\x0b'

/-- Python `str.strip()`. -/
def pyStrip (s : String) : String :=
  String.mk (((s.toList.dropWhile isPyWs).reverse.dropWhile isPyWs).reverse)

/-- Remainder of `cs` after the separator when the separator is its prefix. -/
def dropMatch : List Char → List Char → Option (List Char)
  | [], cs => some cs
  | _, [] => none
  | s :: ss, c :: cc => if c == s then dropMatch ss cc else none

/-- Worker for `pySplit` (fuel bounded by the input length). -/
def pySplitAux (sep : List Char) : Nat → List Char → List Char → List (List Char)
  | 0, acc, _ => [acc.reverse]
  | Nat.succ n, acc, cs =>
    match cs with
    | [] => [acc.reverse]
    | c :: cc =>
      match dropMatch sep cs with
      | some rest => acc.reverse :: pySplitAux sep n [] rest
      | none => pySplitAux sep n (c :: acc) cc

/-- Python `str.split(sep)` for a nonempty separator: leftmost nonoverlapping
occurrences, with empty pieces kept. -/
def pySplit (s sep : String) : List String :=
  (pySplitAux sep.toList (s.toList.length + 1) [] s.toList).map (fun l => String.mk l)

/-! ## Parameter bags and result envelopes -/

/-- Parameter bag handed to a handler.  Python hands a dict; the keys read by
the eight handlers are exactly the fields below, and a field of `none` embeds
an absent key.  Values carry the types the storage records hold; a present but
differently-typed value would raise inside a handler and is outside this
embedding. -/
structure Params where
  restaurant_id : Option Int := none
  user_id : Option Int := none
  date : Option String := none
  time : Option String := none
  party_size : Option Int := none
  special_requests : Option String := none
  reservation_id : Option Int := none
  cuisine : Option String := none
  location : Option String := none
  price_range : Option String := none
  features : Option (List String) := none
  preferences : Option Preferences := none
deriving Repr, DecidableEq

/-- Python truthiness of an optional integer (absent, i.e. None, and 0 are
falsy). -/
def intTruthy : Option Int → Bool
  | none => false
  | some v => v != 0

/-- Python truthiness of an optional string (absent and empty are falsy). -/
def strTruthy : Option String → Bool
  | none => false
  | some s => s != ""

/-- Reservation dict as built by `tools.py` lines 152-161 before storage: it
carries no id (the id is assigned by `add_reservation`, which builds a new
dict and leaves this one untouched).  `created_at` omitted, never read. -/
structure ReservationSubmission where
  restaurant_id : Int
  user_id : Int
  date : String
  time : String
  party_size : Int
  status : String
  special_requests : String := ""
deriving Repr, DecidableEq

/-- Payloads that can appear under the `data` key of a result envelope. -/
inductive ResultData where
  /-- `\x7b"restaurants": [...]\x7d` from search_restaurants. -/
  | restaurants (rs : List Restaurant)
  /-- Full restaurant record from get_restaurant_details. -/
  | restaurant (r : Restaurant)
  /-- `\x7b"available", "available_capacity", "restaurant_capacity"\x7d`. -/
  | availability (available : Bool) (available_capacity : Int) (restaurant_capacity : Nat)
  /-- `\x7b"reservation_id": <stored record>, "reservation": <submitted dict>\x7d`.
  Note `add_reservation` returns the full stored record, and `tools.py` line
  164 binds it to the name `reservation_id`, so the envelope carries the whole
  record there, not a bare identifier. -/
  | reservationMade (reservation_id : Reservation) (reservation : ReservationSubmission)
  /-- `\x7b"recommendations": [...]\x7d`. -/
  | recommendations (rs : List Restaurant)
  /-- `\x7b"reservations": [...]\x7d`, each record augmented with the joined
  restaurant when it resolves. -/
  | reservationsList (rs : List (Reservation × Option Restaurant))
deriving Repr, DecidableEq

/-- Uniform result envelope `\x7bstatus, data?, message?\x7d`. -/
structure Envelope where
  status : String
  data : Option ResultData := none
  message : Option String := none
deriving Repr, DecidableEq

def successData (d : ResultData) : Envelope := { status := "success", data := some d }

def successMsg (m : String) : Envelope := { status := "success", message := some m }

def errorMsg (m : String) : Envelope := { status := "error", message := some m }

/-! ## The read-only handlers over FileStorage -/

/-- Conjunction of the four optional search filters
(`tools.py` lines 67-75): case-insensitive equality on cuisine and location,
exact equality on price tier, feature names a subset of the restaurant
feature keys. -/
def matchesSearch (p : Params) (r : Restaurant) : Bool :=
  (match p.features with
   | some fs => fs.all (fun f => (r.features.map Prod.fst).contains f)
   | none => true) &&
  ((match p.price_range with
    | some pr => r.price_range == pr
    | none => true) &&
   ((match p.location with
     | some l => pyLower r.location == pyLower l
     | none => true) &&
    (match p.cuisine with
     | some c => pyLower r.cuisine == pyLower c
     | none => true)))

/-- ToolRegistry._search_restaurants: sequential filters then the first ten. -/
def search_restaurants (p : Params) (st : FileStorageState) : Envelope :=
  let filtered : List Restaurant := st.restaurants
  let filtered : List Restaurant := match p.cuisine with
    | some c => filtered.filter (fun r => pyLower r.cuisine == pyLower c)
    | none => filtered
  let filtered : List Restaurant := match p.location with
    | some l => filtered.filter (fun r => pyLower r.location == pyLower l)
    | none => filtered
  let filtered : List Restaurant := match p.price_range with
    | some pr => filtered.filter (fun r => r.price_range == pr)
    | none => filtered
  let filtered : List Restaurant := match p.features with
    | some fs => filtered.filter (fun r => fs.all (fun f => (r.features.map Prod.fst).contains f))
    | none => filtered
  successData (.restaurants (filtered.take 10))

/-- ToolRegistry._get_restaurant_details. -/
def get_restaurant_details (p : Params) (st : FileStorageState) : Envelope :=
  if !intTruthy p.restaurant_id then errorMsg "restaurant_id is required"
  else
    match p.restaurant_id with
    | none => errorMsg "restaurant_id is required"
    | some rid =>
      match get_restaurant st rid with
      | none => errorMsg "Restaurant not found"
      | some r => successData (.restaurant r)

/-- Sum of `party_size` over the reservations matching the slot, with no
condition on status (`tools.py` lines 119-128). -/
def slotSum (resvs : List Reservation) (restaurant_id : Int) (date time : String) : Int :=
  ((resvs.filter (fun r =>
      r.restaurant_id == restaurant_id && r.date == date && r.time == time)).map
    (·.party_size)).sum

/-- ToolRegistry._check_availability.  Pure read. -/
def check_availability (p : Params) (st : FileStorageState) : Envelope :=
  let party_size := p.party_size.getD 2
  if !(intTruthy p.restaurant_id && strTruthy p.date && strTruthy p.time) then
    errorMsg "restaurant_id, date, and time are required"
  else
    match p.restaurant_id, p.date, p.time with
    | some rid, some d, some t =>
      if !parseableDateTime d t then errorMsg "Invalid date or time format"
      else
        match get_restaurant st rid with
        | none => errorMsg "Restaurant not found"
        | some r =>
          let available_capacity : Int := (r.capacity : Int) - slotSum st.reservations rid d t
          successData (.availability (decide (party_size ≤ available_capacity))
            available_capacity r.capacity)
    | _, _, _ => errorMsg "restaurant_id, date, and time are required"

/-- Reads the `available` flag the way `tools.py` line 148 does
(`availability["data"]["available"]`); only called on success envelopes,
which always carry availability data there. -/
def availableFlag (e : Envelope) : Bool :=
  match e.data with
  | some (.availability b _ _) => b
  | _ => false

/-! ## The write handlers over FileStorage -/

/-- ToolRegistry._make_reservation.  Presence check on the five required
fields, then a fresh availability check; on an error or unavailable result the
availability envelope is returned verbatim and nothing is stored; otherwise
the reservation is appended with status confirmed (`add_reservation` assigns
`max(ids, default=0) + 1` and forces status to confirmed).  The Python
message interpolates the Python list literal of field names; the embedding
renders the names comma-separated. -/
def make_reservation (p : Params) (st : FileStorageState) : Envelope × FileStorageState :=
  if !(p.restaurant_id.isSome && p.user_id.isSome && p.date.isSome &&
       p.time.isSome && p.party_size.isSome) then
    (errorMsg "Missing required fields: restaurant_id, user_id, date, time, party_size", st)
  else
    match p.restaurant_id, p.user_id, p.date, p.time, p.party_size with
    | some rid, some uid, some d, some t, some ps =>
      let availability := check_availability p st
      if availability.status == "error" || !availableFlag availability then
        (availability, st)
      else
        let submitted : ReservationSubmission :=
          { restaurant_id := rid, user_id := uid, date := d, time := t,
            party_size := ps, status := "confirmed",
            special_requests := p.special_requests.getD "" }
        let stored : Reservation :=
          { id := nextReservationId st, restaurant_id := rid, user_id := uid,
            date := d, time := t, party_size := ps, status := "confirmed",
            special_requests := p.special_requests.getD "" }
        (successData (.reservationMade stored submitted),
         { st with reservations := st.reservations ++ [stored] })
    | _, _, _, _, _ =>
      (errorMsg "Missing required fields: restaurant_id, user_id, date, time, party_size", st)

/-- ToolRegistry._cancel_reservation.  The storage update returns None when no
record matches; the handler discards that return value and reports success
either way (`tools.py` lines 201-203). -/
def cancel_reservation (p : Params) (st : FileStorageState) : Envelope × FileStorageState :=
  if !intTruthy p.reservation_id then (errorMsg "reservation_id is required", st)
  else
    match p.reservation_id with
    | some rid =>
      (successMsg "Reservation cancelled successfully",
       { st with reservations := (cancelFirst rid st.reservations).1 })
    | none => (errorMsg "reservation_id is required", st)

/-- ToolRegistry._get_user_reservations: non-cancelled reservations of the
user, each paired with the joined restaurant record when it resolves.
Pure read. -/
def get_user_reservations (p : Params) (st : FileStorageState) : Envelope :=
  if !intTruthy p.user_id then errorMsg "user_id is required"
  else
    match p.user_id with
    | some uid =>
      let user_reservations :=
        st.reservations.filter (fun r => r.user_id == uid && r.status != "cancelled")
      successData (.reservationsList
        (user_reservations.map (fun r => (r, get_restaurant st r.restaurant_id))))
    | none => errorMsg "user_id is required"

/-- ToolRegistry._update_user_preferences.  After the user lookup succeeds the
source calls `self.storage.update_user(user_id, user)` (`tools.py` line 247),
but `FileStorage` defines no method named update_user, so that call raises
AttributeError; the except clause at lines 249-250 converts it into an error
envelope carrying the exception text and nothing is written to storage.  The
embedding renders the AttributeError text with its quotes dropped. -/
def update_user_preferences (p : Params) (st : FileStorageState) :
    Envelope × FileStorageState :=
  if !intTruthy p.user_id then (errorMsg "user_id is required", st)
  else
    match p.user_id with
    | some uid =>
      match get_user st uid with
      | none => (errorMsg "User not found", st)
      | some _ => (errorMsg "FileStorage object has no attribute update_user", st)
    | none => (errorMsg "user_id is required", st)

/-! ## Recommender (recommender.py)

The similarity machinery lives in floating point; the embedding keeps exactly
the data the control flow consults: the shape and nonzero count of the fitted
document-term matrix, and the restaurant id list. -/

/-- Shape and nonzero count of the scipy sparse matrix returned by
`TfidfVectorizer.fit_transform`. -/
structure TfidfMatrix where
  rows : Nat
  cols : Nat
  nnz : Nat
deriving Repr, DecidableEq

/-- Word character of the default sklearn token pattern (regex word class). -/
def isWordChar (c : Char) : Bool := c.isAlphanum || c == '_'

/-- Longest leading run of word characters, with the remainder. -/
def takeRun : List Char → List Char × List Char
  | [] => ([], [])
  | c :: cs =>
    if isWordChar c then
      let (a, b) := takeRun cs
      (c :: a, b)
    else ([], c :: cs)

/-- Maximal word-character runs of a character list (fuel = list length). -/
def wordRunsFuel : Nat → List Char → List (List Char)
  | 0, _ => []
  | _, [] => []
  | Nat.succ n, c :: cs =>
    if isWordChar c then
      let (a, b) := takeRun cs
      (c :: a) :: wordRunsFuel n b
    else wordRunsFuel n cs

/-- Tokens of a document: lowercased maximal word-character runs of length at
least two (the default sklearn token pattern).  The English stop-word removal
of `stop_words="english"` is not reproduced; no theorem consults the
vocabulary, only the document count. -/
def tokensOf (s : String) : List String :=
  let cs := s.toList.map Char.toLower
  ((wordRunsFuel cs.length cs).filter (fun r => 2 ≤ r.length)).map (fun r => String.mk r)

/-- Modelled shape data of `TfidfVectorizer.fit_transform`: one row per
document, one column per distinct token, one stored entry per document/term
incidence (tf-idf weights of occurring terms are strictly positive under the
default settings, so none of these entries is zero). -/
def fit_transform (texts : List String) : TfidfMatrix :=
  let docTokens := texts.map (fun t => (tokensOf t).dedup)
  { rows := texts.length
    cols := (docTokens.foldr (· ++ ·) []).dedup.length
    nnz := (docTokens.map (·.length)).sum }

/-- Text document built for a restaurant by `_update_vectors`
(`recommender.py` lines 24-33): name, cuisine, location, price tier, the
stringified feature-flag values, the menu item names, space-joined. -/
def restaurantText (r : Restaurant) : String :=
  String.intercalate " "
    [r.name, r.cuisine, r.location, r.price_range,
     String.intercalate " " (r.features.map (fun f => if f.2 then "True" else "False")),
     String.intercalate " " ((r.menu.map (fun cat => cat.2.map Prod.fst)).foldr (· ++ ·) [])]

/-- Joint state of the ToolRegistry: the storage files plus the cached
recommender index (both FileStorage instances read the same files, so one
storage state serves both). -/
structure RegistryState where
  storage : FileStorageState
  restaurant_vectors : Option TfidfMatrix := none
  restaurant_ids : List Int := []
deriving Repr, DecidableEq

/-- RestaurantRecommender._update_vectors: with no restaurants the cache is
cleared, otherwise the matrix is fitted over the restaurant documents. -/
def update_vectors (st : RegistryState) : RegistryState :=
  match st.storage.restaurants with
  | [] => { st with restaurant_vectors := none, restaurant_ids := [] }
  | rs => { st with
      restaurant_vectors := some (fit_transform (rs.map restaurantText)),
      restaurant_ids := rs.map (·.id) }

/-- State of a fresh ToolRegistry over given data files with no reservations:
the constructor runs `_update_vectors` (`recommender.py` line 11). -/
def initRegistry (restaurants : List Restaurant) (users : List User) : RegistryState :=
  update_vectors { storage := { restaurants := restaurants, users := users } }

/-- Python `not` applied to the cached scipy sparse matrix.  Modelled from
scipy.sparse `__bool__`: a 1x1 matrix is truthy iff its entry is nonzero; any
other shape raises ValueError. -/
def sparseNot (m : TfidfMatrix) : Except String Bool :=
  if m.rows == 1 && m.cols == 1 then .ok (m.nnz == 0)
  else .error "The truth value of an array with more than one element is ambiguous. Use a.any() or a.all()."

/-- Preference profile resolution (`recommender.py` lines 69-84): start from
the stored profile when `user_id` is truthy, the user resolves and its
preference dict is truthy; then overlay each truthy explicit field. -/
def resolvePreferences (st : RegistryState) (user_id : Option Int)
    (cuisine_preference location price_range occasion : Option String) : Preferences :=
  let base : Preferences :=
    if intTruthy user_id then
      match user_id with
      | some uid =>
        match get_user st.storage uid with
        | some u =>
          match u.preferences with
          | some prefs => if prefs.truthy then prefs else {}
          | none => {}
        | none => {}
      | none => {}
    else {}
  let base := if strTruthy cuisine_preference then
      { base with cuisine_preference := cuisine_preference } else base
  let base := if strTruthy location then { base with location := location } else base
  let base := if strTruthy price_range then { base with price_range := price_range } else base
  let base := if strTruthy occasion then { base with occasion := occasion } else base
  base

/-- Python `sorted(restaurants, key=rating, reverse=True)[:limit]`: stable
descending sort on rating (ties keep original storage order), first `limit`
records.  The registry always calls with the default limit 5; the Python
slice quirk for an explicit limit of 0 is not modelled. -/
def insertByRating (r : Restaurant) : List Restaurant → List Restaurant
  | [] => [r]
  | x :: xs => if r.rating < x.rating then x :: insertByRating r xs else r :: x :: xs

/-- Stable descending insertion sort on rating: an earlier record is placed
before every later record of equal rating, matching the stability guarantee
of Python `sorted(..., reverse=True)`. -/
def sortByRatingDesc : List Restaurant → List Restaurant
  | [] => []
  | x :: xs => insertByRating x (sortByRatingDesc xs)

def topRatedRestaurants (rs : List Restaurant) (limit : Nat) : List Restaurant :=
  (sortByRatingDesc rs).take limit

/-- Similarity branch (`recommender.py` lines 93-106).  It only executes after
the sparse-truthiness gate accepted the cached matrix, which forces its shape
to be 1x1: exactly one restaurant document.  The argsort of the single cosine
score selects index 0 whatever its floating value, so the branch needs no
numeric model; the wildcard case is unreachable. -/
def similarityTopRestaurants (st : RegistryState) : List Restaurant :=
  match st.restaurant_ids with
  | [i] => (get_restaurant st.storage i).toList
  | _ => []

/-- Ranking performed once the truthiness gate has been passed
(`recommender.py` lines 69-106). -/
def rankAfterGate (st : RegistryState) (user_id : Option Int)
    (cuisine_preference location price_range occasion : Option String)
    (limit : Nat) : List Restaurant :=
  let profile := resolvePreferences st user_id cuisine_preference location price_range occasion
  if !profile.truthy then topRatedRestaurants st.storage.restaurants limit
  else (similarityTopRestaurants st).take limit

/-- RestaurantRecommender.get_recommendations.  The guard at line 64 evaluates
`not self.restaurant_vectors` first: with a cached matrix this consults scipy
sparse truthiness and raises for any shape other than 1x1; with no cached
matrix (`None`) the branch is entered, `_update_vectors` runs, and the
freshly fitted matrix is tested the same way at line 66.  An `Except.error`
models the escaping ValueError; the state records any cache rebuild performed
before the raise. -/
def recommender_get_recommendations (st : RegistryState) (user_id : Option Int)
    (cuisine_preference location price_range occasion : Option String)
    (limit : Nat) : Except String (List Restaurant) × RegistryState :=
  match st.restaurant_vectors with
  | none =>
    let st1 := update_vectors st
    match st1.restaurant_vectors with
    | none => (.ok [], st1)
    | some m =>
      match sparseNot m with
      | .error e => (.error e, st1)
      | .ok true => (.ok [], st1)
      | .ok false =>
        (.ok (rankAfterGate st1 user_id cuisine_preference location price_range occasion limit), st1)
  | some m =>
    match sparseNot m with
    | .error e => (.error e, st)
    | .ok notEmptyVectors =>
      if notEmptyVectors || st.restaurant_ids.isEmpty then
        let st1 := update_vectors st
        match st1.restaurant_vectors with
        | none => (.ok [], st1)
        | some m1 =>
          match sparseNot m1 with
          | .error e => (.error e, st1)
          | .ok true => (.ok [], st1)
          | .ok false =>
            (.ok (rankAfterGate st1 user_id cuisine_preference location price_range occasion limit), st1)
      else
        (.ok (rankAfterGate st user_id cuisine_preference location price_range occasion limit), st)

/-- ToolRegistry._get_recommendations: forwards the preference fields under
their recommender names (`tools.py` lines 180-186; the bag key `cuisine` is
passed as `cuisine_preference`).  A ValueError escaping the recommender
escapes this handler too and is caught by the except clause of
`execute_tool`, which converts it into an error envelope; that conversion is
modelled here so that the dispatcher stays total. -/
def get_recommendations_tool (p : Params) (st : RegistryState) : Envelope × RegistryState :=
  let prefs := p.preferences.getD {}
  let (result, st1) := recommender_get_recommendations st p.user_id
    prefs.cuisine prefs.location prefs.price_range prefs.occasion 5
  match result with
  | .ok rs => (successData (.recommendations rs), st1)
  | .error e => (errorMsg e, st1)

/-! ## The dispatcher (ToolRegistry.execute_tool) -/

/-- Names registered in `_initialize_tools` (`tools.py` lines 18-60). -/
def registryNames : List String :=
  ["search_restaurants", "get_restaurant_details", "check_availability",
   "make_reservation", "get_recommendations", "cancel_reservation",
   "get_user_reservations", "update_user_preferences"]

/-- ToolRegistry.execute_tool: registry lookup, then the handler, with any
escaping handler fault converted to an error envelope (the only handler that
can raise on well-typed input is the recommendations one, handled above). -/
def execute_tool (tool_name : String) (parameters : Params) (st : RegistryState) :
    Envelope × RegistryState :=
  if tool_name == "search_restaurants" then (search_restaurants parameters st.storage, st)
  else if tool_name == "get_restaurant_details" then
    (get_restaurant_details parameters st.storage, st)
  else if tool_name == "check_availability" then (check_availability parameters st.storage, st)
  else if tool_name == "make_reservation" then
    let (e, s2) := make_reservation parameters st.storage
    (e, { st with storage := s2 })
  else if tool_name == "get_recommendations" then get_recommendations_tool parameters st
  else if tool_name == "cancel_reservation" then
    let (e, s2) := cancel_reservation parameters st.storage
    (e, { st with storage := s2 })
  else if tool_name == "get_user_reservations" then
    (get_user_reservations parameters st.storage, st)
  else if tool_name == "update_user_preferences" then
    let (e, s2) := update_user_preferences parameters st.storage
    (e, { st with storage := s2 })
  else (errorMsg ("Tool " ++ tool_name ++ " not found"), st)

/-- One Action Registry invocation: a tool name with its parameter bag. -/
structure RegistryAction where
  name : String
  params : Params
deriving Repr

/-- State after a sequence of Action Registry invocations. -/
def runActions (acts : List RegistryAction) (st : RegistryState) : RegistryState :=
  acts.foldl (fun s a => (execute_tool a.name a.params s).2) st

/-- Sum of party sizes over the stored reservations at a slot whose status is
confirmed: the quantity bounded by the capacity invariant of the spec. -/
def confirmedSum (resvs : List Reservation) (restaurant_id : Int) (date time : String) : Int :=
  ((resvs.filter (fun r =>
      r.restaurant_id == restaurant_id && r.date == date && r.time == time &&
      r.status == "confirmed")).map (·.party_size)).sum

/-! ## JSON values and a model of `json.loads` (core.py directive payloads)

Python json distinguishes int and float; both embed as rationals here (the
handlers only compare and add them).  `NaN` / `Infinity` / `-Infinity` are
accepted by json.loads under its defaults and get their own constructors. -/

inductive Json where
  | null
  | bool (b : Bool)
  | num (q : ℚ)
  | str (s : String)
  | arr (xs : List Json)
  | obj (kvs : List (String × Json))
  | nan
  | inf
  | ninf

/-- Python truthiness of a decoded JSON value. -/
def jsonTruthy : Json → Bool
  | .null => false
  | .bool b => b
  | .num q => q != 0
  | .str s => s != ""
  | .arr xs => !xs.isEmpty
  | .obj kvs => !kvs.isEmpty
  | .nan => true
  | .inf => true
  | .ninf => true

/-- Python dict lookup over the decoded members; duplicate keys in the JSON
text keep the last occurrence, as json.loads assigns them in order. -/
def objGet (kvs : List (String × Json)) (k : String) : Option Json :=
  (kvs.reverse.find? (fun kv => kv.1 == k)).map (·.2)

/-- Python `value[key]` on a decoded JSON value: only dicts are subscriptable
by string key; a missing key raises KeyError, a non-dict raises TypeError. -/
def jsonGetItem (j : Json) (k : String) : Except String Json :=
  match j with
  | .obj kvs =>
    match objGet kvs k with
    | some v => .ok v
    | none => .error ("KeyError: " ++ k)
  | _ => .error "TypeError: value is not subscriptable by a string key"

/-- Python `str()` of a decoded scalar, for interpolation into the unknown
tool message.  Only hashable scalars can reach that interpolation; the float
and container renderings are placeholders no theorem consults. -/
def pyStr : Json → String
  | .null => "None"
  | .bool b => if b then "True" else "False"
  | .num q => if q.den == 1 then toString q.num else toString q.num ++ "/" ++ toString q.den
  | .str s => s
  | .arr _ => "<list>"
  | .obj _ => "<dict>"
  | .nan => "nan"
  | .inf => "inf"
  | .ninf => "-inf"

/-! ### The parser -/

def isJsonWs (c : Char) : Bool := c == ' ' || c == '\t' || c == '\n' || c == '\r'

def skipWs : List Char → List Char
  | [] => []
  | c :: cs => if isJsonWs c then skipWs cs else c :: cs

def hexVal (c : Char) : Option Nat :=
  if '0' ≤ c && c ≤ '9' then some (c.toNat - 48)
  else if 'a' ≤ c && c ≤ 'f' then some (c.toNat - 87)
  else if 'A' ≤ c && c ≤ 'F' then some (c.toNat - 55)
  else none

/-- String body parser (opening quote already consumed), with the JSON escape
sequences; json.loads in strict mode rejects raw control characters. -/
def parseStrAux : Nat → List Char → List Char → Option (List Char × List Char)
  | 0, _, _ => none
  | Nat.succ n, acc, cs =>
    match cs with
    | [] => none
    | c :: rest =>
      if c == '"' then some (acc.reverse, rest)
      else if c == '\\' then
        match rest with
        | [] => none
        | e :: rest2 =>
          if e == '"' then parseStrAux n ('"' :: acc) rest2
          else if e == '\\' then parseStrAux n ('\\' :: acc) rest2
          else if e == '/' then parseStrAux n ('/' :: acc) rest2
          else if e == 'b' then parseStrAux n ('\x08' :: acc) rest2
          else if e == 'f' then parseStrAux n ('\x0c' :: acc) rest2
          else if e == 'n' then parseStrAux n ('\n' :: acc) rest2
          else if e == 'r' then parseStrAux n ('\r' :: acc) rest2
          else if e == 't' then parseStrAux n ('\t' :: acc) rest2
          else if e == 'u' then
            match rest2 with
            | h1 :: h2 :: h3 :: h4 :: rest3 =>
              match hexVal h1, hexVal h2, hexVal h3, hexVal h4 with
              | some a, some b, some c2, some d =>
                let code := a * 4096 + b * 256 + c2 * 16 + d
                if h : code.isValidChar then parseStrAux n (Char.ofNatAux code h :: acc) rest3
                else parseStrAux n ('�' :: acc) rest3
              | _, _, _, _ => none
            | _ => none
          else none
      else if c.toNat < 32 then none
      else parseStrAux n (c :: acc) rest

def takeDigits : List Char → List Char × List Char
  | [] => ([], [])
  | c :: cs =>
    if c.isDigit then
      let (a, b) := takeDigits cs
      (c :: a, b)
    else ([], c :: cs)

/-- Exponent suffix of a JSON number; absent means exponent 0. -/
def parseExp (cs : List Char) : Option (Int × List Char) :=
  match cs with
  | c :: rest =>
    if c == 'e' || c == 'E' then
      let (esign, rest2) : Int × List Char :=
        match rest with
        | '+' :: r => (1, r)
        | '-' :: r => (-1, r)
        | _ => (1, rest)
      match takeDigits rest2 with
      | ([], _) => none
      | (eds, rest3) => some (esign * (digitsToNat eds : Int), rest3)
    else some (0, cs)
  | [] => some (0, [])

/-- Rational value of a parsed JSON number. -/
def mkJsonNum (neg : Bool) (ds fds : List Char) (e : Int) : ℚ :=
  let mant : Int := (digitsToNat (ds ++ fds) : Int)
  let mant := if neg then -mant else mant
  let shift : Int := e - (fds.length : Int)
  if 0 ≤ shift then mkRat (mant * ((10 : Int) ^ shift.toNat)) 1
  else mkRat mant ((10 : Nat) ^ (-shift).toNat)

/-- JSON number grammar: optional minus, integer part without a leading zero,
optional fraction, optional exponent. -/
def parseNumber (cs : List Char) : Option (ℚ × List Char) :=
  let (neg, cs1) : Bool × List Char :=
    match cs with
    | '-' :: rest => (true, rest)
    | _ => (false, cs)
  match takeDigits cs1 with
  | ([], _) => none
  | (ds, cs2) =>
    if 2 ≤ ds.length && ds.headD '0' == '0' then none
    else
      match cs2 with
      | '.' :: rest =>
        match takeDigits rest with
        | ([], _) => none
        | (fds, cs3) =>
          match parseExp cs3 with
          | some (e, cs4) => some (mkJsonNum neg ds fds e, cs4)
          | none => none
      | _ =>
        match parseExp cs2 with
        | some (e, cs4) => some (mkJsonNum neg ds [] e, cs4)
        | none => none

mutual

/-- Value parser, fuel-bounded (two units of fuel per consumed character are
always sufficient). -/
def parseJsonValue : Nat → List Char → Option (Json × List Char)
  | 0, _ => none
  | Nat.succ n, cs =>
    let cs := skipWs cs
    match cs with
    | 'n' :: 'u' :: 'l' :: 'l' :: r => some (.null, r)
    | 't' :: 'r' :: 'u' :: 'e' :: r => some (.bool true, r)
    | 'f' :: 'a' :: 'l' :: 's' :: 'e' :: r => some (.bool false, r)
    | 'N' :: 'a' :: 'N' :: r => some (.nan, r)
    | 'I' :: 'n' :: 'f' :: 'i' :: 'n' :: 'i' :: 't' :: 'y' :: r => some (.inf, r)
    | '-' :: 'I' :: 'n' :: 'f' :: 'i' :: 'n' :: 'i' :: 't' :: 'y' :: r => some (.ninf, r)
    | '"' :: r =>
      match parseStrAux (r.length + 1) [] r with
      | some (s, r2) => some (.str (String.mk s), r2)
      | none => none
    | '[' :: r =>
      match skipWs r with
      | ']' :: r2 => some (.arr [], r2)
      | r1 =>
        match parseJsonElems n r1 with
        | some (xs, r2) => some (.arr xs, r2)
        | none => none
    | '\x7b' :: r =>
      match skipWs r with
      | '\x7d' :: r2 => some (.obj [], r2)
      | r1 =>
        match parseJsonMembers n r1 with
        | some (kvs, r2) => some (.obj kvs, r2)
        | none => none
    | other =>
      match parseNumber other with
      | some (q, r2) => some (.num q, r2)
      | none => none

/-- Comma-separated array elements up to the closing bracket. -/
def parseJsonElems : Nat → List Char → Option (List Json × List Char)
  | 0, _ => none
  | Nat.succ n, cs =>
    match parseJsonValue n cs with
    | none => none
    | some (v, r) =>
      match skipWs r with
      | ',' :: r2 =>
        match parseJsonElems n r2 with
        | some (xs, r3) => some (v :: xs, r3)
        | none => none
      | ']' :: r2 => some ([v], r2)
      | _ => none

/-- Comma-separated object members up to the closing brace. -/
def parseJsonMembers : Nat → List Char → Option (List (String × Json) × List Char)
  | 0, _ => none
  | Nat.succ n, cs =>
    match skipWs cs with
    | '"' :: r =>
      match parseStrAux (r.length + 1) [] r with
      | none => none
      | some (k, r2) =>
        match skipWs r2 with
        | ':' :: r3 =>
          match parseJsonValue n r3 with
          | none => none
          | some (v, r4) =>
            match skipWs r4 with
            | ',' :: r5 =>
              match parseJsonMembers n r5 with
              | some (kvs, r6) => some ((String.mk k, v) :: kvs, r6)
              | none => none
            | '\x7d' :: r5 => some ([(String.mk k, v)], r5)
            | _ => none
        | _ => none
    | _ => none

end

/-- Model of `json.loads`: the whole input must be one JSON value, possibly
surrounded by whitespace; `none` embeds a raised decode error. -/
def json_loads (s : String) : Option Json :=
  let cs := s.toList
  match parseJsonValue (2 * cs.length + 2) cs with
  | some (j, rest) => if (skipWs rest).isEmpty then some j else none
  | none => none

/-! ## Orchestrator (core.py) -/

/-- Agent._extract_tool_call (`core.py` lines 113-122): when the directive
label occurs in the model output, the text between its first occurrence and
the next newline (or the second occurrence of the label, whichever the
leftmost split yields) is stripped and handed to json.loads; any exception,
in particular a parse failure, yields None. -/
def extract_tool_call (llm_response : String) : Option Json :=
  match pySplit llm_response "TOOL_CALL:" with
  | _ :: payload :: _ => json_loads (pyStrip ((pySplit payload "\n").headD ""))
  | _ => none

def decodeStr : Option Json → Option String
  | some (.str s) => some s
  | _ => none

def decodeInt : Option Json → Option Int
  | some (.num q) => if q.den == 1 then some q.num else none
  | _ => none

def decodeStrList : Option Json → Option (List String)
  | some (.arr xs) =>
    xs.foldr (fun x acc =>
      match x, acc with
      | .str s, some l => some (s :: l)
      | _, _ => none) (some [])
  | _ => none

def decodePrefs : Option Json → Option Preferences
  | some (.obj kvs) => some
      { cuisine := decodeStr (objGet kvs "cuisine")
        cuisine_preference := decodeStr (objGet kvs "cuisine_preference")
        location := decodeStr (objGet kvs "location")
        price_range := decodeStr (objGet kvs "price_range")
        occasion := decodeStr (objGet kvs "occasion")
        dietary_restrictions := decodeStrList (objGet kvs "dietary_restrictions") }
  | _ => none

/-- Typed view of a decoded parameter object, keeping only well-typed values
under the keys the handlers read.  A present but differently-typed value
would raise inside the Python handler and be converted to an error envelope
by `execute_tool`; those runs are outside the typed embedding and no claim
exercises them. -/
def decodeParams (kvs : List (String × Json)) : Params :=
  { restaurant_id := decodeInt (objGet kvs "restaurant_id")
    user_id := decodeInt (objGet kvs "user_id")
    date := decodeStr (objGet kvs "date")
    time := decodeStr (objGet kvs "time")
    party_size := decodeInt (objGet kvs "party_size")
    special_requests := decodeStr (objGet kvs "special_requests")
    reservation_id := decodeInt (objGet kvs "reservation_id")
    cuisine := decodeStr (objGet kvs "cuisine")
    location := decodeStr (objGet kvs "location")
    price_range := decodeStr (objGet kvs "price_range")
    features := decodeStrList (objGet kvs "features")
    preferences := decodePrefs (objGet kvs "preferences") }

def renderRestaurantLine (r : Restaurant) : String :=
  "- " ++ r.name ++ " (" ++ r.cuisine ++ "): " ++ r.price_range ++ " in " ++ r.location ++ "\n"

def genericSuccessText : String :=
  "I have processed your request successfully. Is there anything else you would like to know?"

/-- Agent._format_tool_response (`core.py` lines 128-178).  Deterministic
rendering keyed on the envelope shape.  Contractions in the source string
literals are expanded (the embedding avoids apostrophes); only the error
branch is consulted by a theorem.  In the reservation branch the source
interpolates the whole stored record under the ID label; it is rendered here
by its id.  In the bookings branch a failed restaurant join would raise
KeyError in the source; it is rendered here as an empty name.  Neither branch
is exercised by a claim. -/
def format_tool_response (e : Envelope) : String :=
  if e.status == "error" then
    "I apologize, but I encountered an error: " ++ e.message.getD ""
  else
    match e.data with
    | some (.restaurants rs) =>
      if rs.isEmpty then
        "I could not find any restaurants matching your criteria. Would you like to try different search parameters?"
      else
        "Here are some restaurants that match your criteria:\n\n" ++
        String.join ((rs.take 3).map renderRestaurantLine) ++
        (if 3 < rs.length then
          "\nAnd " ++ toString (rs.length - 3) ++
          " more options. Would you like to see more details about any of these restaurants?"
         else "")
    | some (.reservationMade stored resv) =>
      "Great! I have made your reservation at " ++ toString resv.restaurant_id ++
      " for " ++ resv.date ++ " at " ++ resv.time ++ " for " ++ toString resv.party_size ++
      " people. Your reservation ID is " ++ toString stored.id ++ "."
    | some (.recommendations rs) =>
      if rs.isEmpty then
        "I could not find any recommendations based on your preferences. Would you like to try different criteria?"
      else
        "Based on your preferences, here are some restaurants you might enjoy:\n\n" ++
        String.join ((rs.take 3).map renderRestaurantLine)
    | some (.reservationsList rs) =>
      if rs.isEmpty then
        "You do not have any active reservations at the moment."
      else
        "Here are your current reservations:\n\n" ++
        String.join (rs.map (fun pr =>
          "- " ++ (match pr.2 with | some r => r.name | none => "") ++ " on " ++
          pr.1.date ++ " at " ++ pr.1.time ++ " for " ++ toString pr.1.party_size ++
          " people (Status: " ++ pr.1.status ++ ")\n"))
    | some (.availability b avail cap) =>
      if b then
        "Yes, there is availability for your requested time! The restaurant can accommodate your party of " ++
        toString avail ++ " people."
      else
        "I am sorry, but the restaurant is fully booked for that time. They have " ++
        toString avail ++ " seats available, but need " ++ toString cap ++
        " for your party. Would you like to try a different time?"
    | some (.restaurant _) => genericSuccessText
    | none => genericSuccessText

/-- Reply computation of Agent.process_message (`core.py` lines 196-208),
given the language-model output (the outbound call is an external
collaborator; conversation-history bookkeeping records the reply and does not
alter it).  An `Except.error` embeds an exception escaping process_message:
subscripting a non-dict directive value, a missing `tool` or `parameters`
key, splatting a non-mapping parameter payload, and hashing an unhashable
tool value all raise there uncaught.  The injected `user_info` key is read by
no handler and is dropped by the typed decoding. -/
def process_message_reply (llm_response : String) (st : RegistryState) :
    Except String (String × RegistryState) :=
  match extract_tool_call llm_response with
  | none => .ok (llm_response, st)
  | some tool_call =>
    if jsonTruthy tool_call then
      match jsonGetItem tool_call "tool" with
      | .error e => .error e
      | .ok toolJson =>
        match jsonGetItem tool_call "parameters" with
        | .error e => .error e
        | .ok paramsJson =>
          match paramsJson with
          | .obj kvs =>
            match toolJson with
            | .str t =>
              let (env, st2) := execute_tool t (decodeParams kvs) st
              .ok (format_tool_response env, st2)
            | .arr _ => .error "TypeError: unhashable type"
            | .obj _ => .error "TypeError: unhashable type"
            | other =>
              (.ok (format_tool_response (errorMsg ("Tool " ++ pyStr other ++ " not found")), st))
          | _ => .error "TypeError: the parameter payload is not a mapping"
    else .ok (llm_response, st)

/-! ## Helper lemmas -/

lemma parseableDate_ne_empty {d : String} (h : parseableDate d = true) : d ≠ "" := by
  rintro rfl
  exact absurd h (by decide)

lemma parseableTime_ne_empty {t : String} (h : parseableTime t = true) : t ≠ "" := by
  rintro rfl
  exact absurd h (by decide)

/-- Shape of the check_availability result when all guards pass: the success
envelope with the remaining capacity computed over all reservations at the
slot. -/
lemma check_availability_ok (st : FileStorageState) (p : Params) (rid ps : Int)
    (d t : String) (r : Restaurant)
    (hrid : p.restaurant_id = some rid) (hd : p.date = some d) (ht : p.time = some t)
    (hps : p.party_size = some ps) (h0 : rid ≠ 0)
    (hparse : parseableDateTime d t = true)
    (hres : get_restaurant st rid = some r) :
    check_availability p st =
      successData (.availability (decide (ps ≤ (r.capacity : Int) - slotSum st.reservations rid d t))
        ((r.capacity : Int) - slotSum st.reservations rid d t) r.capacity) := by
  have hd0 : d ≠ "" := parseableDate_ne_empty (by
    have := hparse
    unfold parseableDateTime at this
    exact (Bool.and_eq_true_iff.mp this).1)
  have ht0 : t ≠ "" := parseableTime_ne_empty (by
    have := hparse
    unfold parseableDateTime at this
    exact (Bool.and_eq_true_iff.mp this).2)
  unfold check_availability
  rw [hrid, hd, ht, hps]
  simp [intTruthy, strTruthy, h0, hd0, ht0, hparse, hres]

lemma cancelFirst_not_found (rid : Int) (l : List Reservation)
    (h : ∀ r ∈ l, r.id ≠ rid) : cancelFirst rid l = (l, false) := by
  induction l with
  | nil => rfl
  | cons r rs ih =>
    have hr : (r.id == rid) = false := by
      simp [h r (List.mem_cons_self r rs)]
    simp [cancelFirst, hr, ih (fun x hx => h x (List.mem_cons_of_mem r hx))]

lemma confirmedSum_cons (r : Reservation) (l : List Reservation) (rid : Int) (d t : String) :
    confirmedSum (r :: l) rid d t =
      (if r.restaurant_id == rid && r.date == d && r.time == t && r.status == "confirmed"
       then r.party_size else 0) + confirmedSum l rid d t := by
  simp only [confirmedSum, List.filter_cons]
  split
  · simp
  · simp

lemma slotSum_cons (r : Reservation) (l : List Reservation) (rid : Int) (d t : String) :
    slotSum (r :: l) rid d t =
      (if r.restaurant_id == rid && r.date == d && r.time == t
       then r.party_size else 0) + slotSum l rid d t := by
  simp only [slotSum, List.filter_cons]
  split
  · simp
  · simp

lemma confirmedSum_append (l1 l2 : List Reservation) (rid : Int) (d t : String) :
    confirmedSum (l1 ++ l2) rid d t = confirmedSum l1 rid d t + confirmedSum l2 rid d t := by
  simp [confirmedSum, List.filter_append]

/-- With nonnegative party sizes, restricting the slot sum to confirmed
records can only shrink it. -/
lemma confirmedSum_le_slotSum (l : List Reservation)
    (h : ∀ res ∈ l, 0 ≤ res.party_size) (rid : Int) (d t : String) :
    confirmedSum l rid d t ≤ slotSum l rid d t := by
  induction l with
  | nil => simp [confirmedSum, slotSum]
  | cons r rs ih =>
    have h0 := h r (List.mem_cons_self r rs)
    have ihs := ih (fun x hx => h x (List.mem_cons_of_mem r hx))
    rw [confirmedSum_cons, slotSum_cons]
    by_cases hs : (r.restaurant_id == rid && r.date == d && r.time == t) = true
    · by_cases hc : (r.status == "confirmed") = true
      · simp [hs, hc]
        omega
      · simp [hs, hc]
        omega
    · simp [hs]
      omega

lemma cancelFirst_party_nonneg (rid0 : Int) (l : List Reservation)
    (h : ∀ res ∈ l, 0 ≤ res.party_size) :
    ∀ res ∈ (cancelFirst rid0 l).1, 0 ≤ res.party_size := by
  induction l with
  | nil => simp [cancelFirst]
  | cons r rs ih =>
    have h0 := h r (List.mem_cons_self r rs)
    have iht := ih (fun x hx => h x (List.mem_cons_of_mem r hx))
    unfold cancelFirst
    by_cases hid : (r.id == rid0) = true
    · simp [hid]
      constructor
      · exact h0
      · exact fun x hx => h x (List.mem_cons_of_mem r hx)
    · simp [hid]
      exact ⟨h0, iht⟩

/-- Flipping one record to cancelled never increases a confirmed slot sum. -/
lemma cancelFirst_confirmedSum_le (rid0 : Int) (l : List Reservation)
    (h : ∀ res ∈ l, 0 ≤ res.party_size) (rid : Int) (d t : String) :
    confirmedSum (cancelFirst rid0 l).1 rid d t ≤ confirmedSum l rid d t := by
  induction l with
  | nil => simp [cancelFirst]
  | cons r rs ih =>
    have h0 := h r (List.mem_cons_self r rs)
    have ihs := ih (fun x hx => h x (List.mem_cons_of_mem r hx))
    by_cases hid : (r.id == rid0) = true
    · have hrw : (cancelFirst rid0 (r :: rs)).1 = { r with status := "cancelled" } :: rs := by
        simp [cancelFirst, hid]
      rw [hrw, confirmedSum_cons, confirmedSum_cons]
      simp only [Bool.and_eq_false_imp]
      simp
      split <;> omega
    · have hrw : (cancelFirst rid0 (r :: rs)).1 = r :: (cancelFirst rid0 rs).1 := by
        simp [cancelFirst, hid]
      rw [hrw, confirmedSum_cons, confirmedSum_cons]
      omega

/-! ## The capacity invariant and its preservation -/

/-- Inductive invariant: every stored party size is nonnegative, and the
confirmed-party sum of every slot stays within the capacity of the restaurant
its id resolves to. -/
def CapacityInv (sto : FileStorageState) : Prop :=
  (∀ res ∈ sto.reservations, 0 ≤ res.party_size) ∧
  (∀ (rid : Int) (r : Restaurant) (d t : String),
    get_restaurant sto rid = some r →
    confirmedSum sto.reservations rid d t ≤ (r.capacity : Int))

/-- Either check_availability reports an error, or it resolved the slot and
returned the availability figures for it. -/
lemma check_availability_cases (p : Params) (sto : FileStorageState) :
    (check_availability p sto).status = "error" ∨
    ∃ rid d t r, p.restaurant_id = some rid ∧ p.date = some d ∧ p.time = some t ∧
      get_restaurant sto rid = some r ∧
      check_availability p sto =
        successData (.availability
          (decide (p.party_size.getD 2 ≤ (r.capacity : Int) - slotSum sto.reservations rid d t))
          ((r.capacity : Int) - slotSum sto.reservations rid d t) r.capacity) := by
  unfold check_availability
  split_ifs with h1
  · left; rfl
  · split
    case _ rid d t heq1 heq2 heq3 =>
      split_ifs with h2
      · left; rfl
      · split
        case _ hget => left; rfl
        case _ r hget =>
          right
          exact ⟨rid, d, t, r, heq1, heq2, heq3, hget, rfl⟩
    case _ => left; rfl

lemma get_restaurant_eq_of_beq {sto : FileStorageState} {rid rid2 : Int}
    (hbeq : (rid == rid2) = true) :
    get_restaurant sto rid = get_restaurant sto rid2 := by
  rw [beq_iff_eq] at hbeq
  rw [hbeq]

lemma make_reservation_preserves (p : Params) (sto : FileStorageState)
    (hp : ∀ v, p.party_size = some v → 0 ≤ v)
    (hinv : CapacityInv sto) : CapacityInv (make_reservation p sto).2 := by
  unfold make_reservation
  split_ifs with hmiss
  · exact hinv
  · split
    case _ rid uid d t ps heq1 heq2 heq3 heq4 heq5 =>
      dsimp only
      split_ifs with hbad
      · exact hinv
      · rcases check_availability_cases p sto with herr | ⟨rid2, d2, t2, r, hr1, hr2, hr3, hget, hform⟩
        · exfalso
          apply hbad
          simp [herr]
        · rw [heq1] at hr1
          rw [heq3] at hr2
          rw [heq4] at hr3
          cases hr1; cases hr2; cases hr3
          have hflag : availableFlag (check_availability p sto) = true := by
            rcases hfl : availableFlag (check_availability p sto) with _ | _
            · exfalso; apply hbad; simp [hfl]
            · rfl
          rw [hform] at hflag
          simp only [availableFlag, successData] at hflag
          rw [heq5] at hflag
          simp only [Option.getD_some] at hflag
          have hfit : ps ≤ (r.capacity : Int) - slotSum sto.reservations rid d t :=
            of_decide_eq_true hflag
          obtain ⟨hparties, hsums⟩ := hinv
          have hps : 0 ≤ ps := hp ps heq5
          constructor
          · intro res hres
            simp only [List.mem_append, List.mem_singleton] at hres
            rcases hres with hres | hres
            · exact hparties res hres
            · subst hres
              exact hps
          · intro rid3 r3 d3 t3 hget3
            simp only at hget3
            rw [confirmedSum_append, confirmedSum_cons]
            have hz : confirmedSum [] rid3 d3 t3 = 0 := by simp [confirmedSum]
            rw [hz]
            dsimp only
            by_cases hcond : ((rid == rid3 && d == d3 && t == t3 &&
                ("confirmed" == "confirmed")) : Bool) = true
            · simp only [hcond, if_true]
              have h1 : (rid == rid3) = true := by
                simp at hcond
                simp [hcond.1.1]
              have h2 : d = d3 ∧ t = t3 := by
                simp at hcond
                exact ⟨hcond.1.2, hcond.2⟩
              obtain ⟨hd3, ht3⟩ := h2
              subst hd3; subst ht3
              have hgeq : get_restaurant sto rid = get_restaurant sto rid3 :=
                get_restaurant_eq_of_beq h1
              rw [hget] at hgeq
              have hget3s : get_restaurant sto rid3 = some r3 := hget3
              rw [hget3s] at hgeq
              have hr3 : r3 = r := (Option.some.inj hgeq).symm
              subst hr3
              have hle := confirmedSum_le_slotSum sto.reservations hparties rid3 d t
              rw [beq_iff_eq] at h1
              subst h1
              omega
            · rw [if_neg hcond]
              have hs3 := hsums rid3 r3 d3 t3 hget3
              omega
    case _ => exact hinv

lemma cancel_reservation_preserves (p : Params) (sto : FileStorageState)
    (hinv : CapacityInv sto) : CapacityInv (cancel_reservation p sto).2 := by
  unfold cancel_reservation
  split_ifs with h1
  · exact hinv
  · split
    case _ rid heq =>
      obtain ⟨hparties, hsums⟩ := hinv
      constructor
      · exact cancelFirst_party_nonneg rid sto.reservations hparties
      · intro rid3 r3 d3 t3 hget3
        have hget3s : get_restaurant sto rid3 = some r3 := hget3
        have hle := cancelFirst_confirmedSum_le rid sto.reservations hparties rid3 d3 t3
        have hbound := hsums rid3 r3 d3 t3 hget3s
        dsimp only
        omega
    case _ => exact hinv

lemma update_vectors_storage (st : RegistryState) :
    (update_vectors st).storage = st.storage := by
  unfold update_vectors
  split <;> rfl

lemma recommender_storage (st : RegistryState) (user_id : Option Int)
    (cuisine_preference location price_range occasion : Option String) (limit : Nat) :
    (recommender_get_recommendations st user_id cuisine_preference location price_range
      occasion limit).2.storage = st.storage := by
  unfold recommender_get_recommendations
  cases h1 : st.restaurant_vectors with
  | none =>
    cases h2 : (update_vectors st).restaurant_vectors with
    | none =>
      simp only [h2]
      exact update_vectors_storage st
    | some m =>
      simp only [h2]
      cases h3 : sparseNot m with
      | error e =>
        simp only [h3]
        exact update_vectors_storage st
      | ok b =>
        cases b <;> simp only [h3] <;> exact update_vectors_storage st
  | some m =>
    cases h3 : sparseNot m with
    | error e => simp only [h3]
    | ok b =>
      simp only [h3]
      by_cases h4 : (b || st.restaurant_ids.isEmpty) = true
      · rw [if_pos h4]
        cases h2 : (update_vectors st).restaurant_vectors with
        | none =>
          simp only [h2]
          exact update_vectors_storage st
        | some m1 =>
          simp only [h2]
          cases h5 : sparseNot m1 with
          | error e =>
            simp only [h5]
            exact update_vectors_storage st
          | ok b1 =>
            cases b1 <;> simp only [h5] <;> exact update_vectors_storage st
      · rw [if_neg h4]

lemma get_recommendations_tool_storage (p : Params) (st : RegistryState) :
    ((get_recommendations_tool p st).2).storage = st.storage := by
  unfold get_recommendations_tool
  rcases hrec : recommender_get_recommendations st p.user_id (p.preferences.getD {}).cuisine
      (p.preferences.getD {}).location (p.preferences.getD {}).price_range
      (p.preferences.getD {}).occasion 5 with ⟨result, st1⟩
  have hst := recommender_storage st p.user_id (p.preferences.getD {}).cuisine
      (p.preferences.getD {}).location (p.preferences.getD {}).price_range
      (p.preferences.getD {}).occasion 5
  rw [hrec] at hst
  dsimp only at hst ⊢
  rw [hrec]
  cases result <;> simpa using hst

lemma update_user_preferences_snd (p : Params) (sto : FileStorageState) :
    (update_user_preferences p sto).2 = sto := by
  unfold update_user_preferences
  split_ifs with h1
  · rfl
  · split
    case _ uid heq =>
      cases hget : get_user sto uid <;> rfl
    case _ => rfl

/-- Party-size side condition on an action: a make_reservation invocation
supplies a nonnegative party size (other actions are unconstrained). -/
def partyFieldNonneg (a : RegistryAction) : Prop :=
  a.name = "make_reservation" → ∀ v, a.params.party_size = some v → 0 ≤ v

lemma execute_tool_preserves (name : String) (p : Params) (st : RegistryState)
    (hp : name = "make_reservation" → ∀ v, p.party_size = some v → 0 ≤ v)
    (hinv : CapacityInv st.storage) :
    CapacityInv (execute_tool name p st).2.storage := by
  unfold execute_tool
  split_ifs with e1 e2 e3 e4 e5 e6 e7 e8
  · exact hinv
  · exact hinv
  · exact hinv
  · have hps : ∀ v, p.party_size = some v → 0 ≤ v := hp (by simpa using e4)
    have := make_reservation_preserves p st.storage hps hinv
    rcases hmk : make_reservation p st.storage with ⟨env, s2⟩
    rw [hmk] at this
    simp only [hmk]
    exact this
  · have hs := get_recommendations_tool_storage p st
    simp only [hs]
    exact hinv
  · have := cancel_reservation_preserves p st.storage hinv
    rcases hmk : cancel_reservation p st.storage with ⟨env, s2⟩
    rw [hmk] at this
    simp only [hmk]
    exact this
  · exact hinv
  · have hs := update_user_preferences_snd p st.storage
    rcases hmk : update_user_preferences p st.storage with ⟨env, s2⟩
    rw [hmk] at hs
    have hs2 : s2 = st.storage := hs
    simp only [hmk]
    simp only [hs2]
    exact hinv
  · exact hinv

lemma runActions_preserves (acts : List RegistryAction) (st : RegistryState)
    (hacts : ∀ a ∈ acts, partyFieldNonneg a) (hinv : CapacityInv st.storage) :
    CapacityInv (runActions acts st).storage := by
  induction acts generalizing st with
  | nil => exact hinv
  | cons a rest ih =>
    have ha := hacts a (List.mem_cons_self a rest)
    have hstep := execute_tool_preserves a.name a.params st ha hinv
    exact ih ((execute_tool a.name a.params st).2)
      (fun x hx => hacts x (List.mem_cons_of_mem a hx)) hstep

lemma initRegistry_inv (restaurants : List Restaurant) (users : List User) :
    CapacityInv (initRegistry restaurants users).storage := by
  unfold initRegistry
  rw [update_vectors_storage]
  constructor
  · intro res hres
    simp at hres
  · intro rid r d t _
    have : confirmedSum [] rid d t = 0 := by simp [confirmedSum]
    simp only [this]
    exact Int.natCast_nonneg r.capacity

/-! ## Concrete fixtures -/

def bistro : Restaurant :=
  { id := 1, name := "Bistro Verde", cuisine := "Italian", location := "Downtown",
    capacity := 10, price_range := "$$", rating := 4.5 }

def sakura : Restaurant :=
  { id := 2, name := "Sakura House", cuisine := "Japanese", location := "Midtown",
    capacity := 60, price_range := "$$$$", rating := 4.8 }

/-- Confirmed four-person booking at the 2024-06-01 19:00 slot. -/
def fourSeatBooking : Reservation :=
  { id := 1, restaurant_id := 1, user_id := 7, date := "2024-06-01",
    time := "19:00", party_size := 4, status := "confirmed" }

/-- Store with one confirmed four-person booking at the 2024-06-01 19:00 slot
of the capacity-10 restaurant. -/
def bookedSlotState : FileStorageState :=
  { restaurants := [bistro], reservations := [fourSeatBooking] }

def availParams : Params :=
  { restaurant_id := some 1, date := some "2024-06-01", time := some "19:00",
    party_size := some 2 }

/-! ## Claim theorems -/

/-- C8: for every storage state and parameter bag, search_restaurants returns
a success envelope listing the first at-most-ten restaurants, in storage
order, that pass every supplied filter (case-insensitive cuisine and
location, exact price tier, feature-name subset). -/
theorem search_restaurants_spec (p : Params) (st : FileStorageState) :
    search_restaurants p st =
      successData (.restaurants ((st.restaurants.filter (matchesSearch p)).take 10)) := by
  unfold search_restaurants matchesSearch
  rcases p with ⟨rid, uid, d, t, ps, sr, resid, c, loc, pr, f, prefs⟩
  cases c <;> cases loc <;> cases pr <;> cases f <;> simp [List.filter_filter]

/-- C3: when the five required fields are present, the date and time parse,
the restaurant resolves and the requested party exceeds the remaining
capacity of the slot, make_reservation leaves the store unchanged and returns
exactly the check_availability envelope, which reports available = false with
the remaining and total capacity figures. -/
theorem make_reservation_full_slot_returns_availability (st : FileStorageState) (p : Params)
    (rid uid ps : Int) (d t : String) (r : Restaurant)
    (hrid : p.restaurant_id = some rid) (huid : p.user_id = some uid)
    (hd : p.date = some d) (ht : p.time = some t) (hps : p.party_size = some ps)
    (h0 : rid ≠ 0) (hparse : parseableDateTime d t = true)
    (hres : get_restaurant st rid = some r)
    (hfull : (r.capacity : Int) - slotSum st.reservations rid d t < ps) :
    make_reservation p st = (check_availability p st, st) ∧
    check_availability p st =
      successData (.availability false
        ((r.capacity : Int) - slotSum st.reservations rid d t) r.capacity) := by
  have hca := check_availability_ok st p rid ps d t r hrid hd ht hps h0 hparse hres
  have hdec : decide (ps ≤ (r.capacity : Int) - slotSum st.reservations rid d t) = false :=
    decide_eq_false (not_le.mpr hfull)
  rw [hdec] at hca
  constructor
  · unfold make_reservation
    rw [hrid, huid, hd, ht, hps]
    simp [hca, availableFlag, successData]
  · exact hca

/-- C10: make_reservation never consults the user table — with the required
fields present, a parseable slot, a resolvable restaurant and sufficient
remaining capacity it stores a confirmed reservation and returns success,
even under the explicit hypothesis that no stored user carries the given
user_id. -/
theorem make_reservation_no_user_check (st : FileStorageState) (p : Params)
    (rid uid ps : Int) (d t : String) (r : Restaurant)
    (hrid : p.restaurant_id = some rid) (huid : p.user_id = some uid)
    (hd : p.date = some d) (ht : p.time = some t) (hps : p.party_size = some ps)
    (h0 : rid ≠ 0) (hparse : parseableDateTime d t = true)
    (hres : get_restaurant st rid = some r)
    (hfit : ps ≤ (r.capacity : Int) - slotSum st.reservations rid d t)
    (husers : ∀ u ∈ st.users, u.id ≠ uid) :
    make_reservation p st =
      (successData (.reservationMade
          { id := nextReservationId st, restaurant_id := rid, user_id := uid, date := d,
            time := t, party_size := ps, status := "confirmed",
            special_requests := p.special_requests.getD "" }
          { restaurant_id := rid, user_id := uid, date := d, time := t, party_size := ps,
            status := "confirmed", special_requests := p.special_requests.getD "" }),
       { st with reservations := st.reservations ++
          [{ id := nextReservationId st, restaurant_id := rid, user_id := uid, date := d,
             time := t, party_size := ps, status := "confirmed",
             special_requests := p.special_requests.getD "" }] }) := by
  have hca := check_availability_ok st p rid ps d t r hrid hd ht hps h0 hparse hres
  have hdec : decide (ps ≤ (r.capacity : Int) - slotSum st.reservations rid d t) = true :=
    decide_eq_true hfit
  rw [hdec] at hca
  unfold make_reservation
  rw [hrid, huid, hd, ht, hps]
  simp [hca, availableFlag, successData]

/-- C5: the claim expects a NotFoundError-shaped error envelope for a
reservation id matching no stored record; the handler instead discards the
None returned by the storage update and reports the same success envelope as
a real cancellation, leaving the store unchanged.  This theorem evaluates the
code at the failing input (id 99 against a store holding only id 1). -/
theorem cancel_reservation_missing_id_eval :
    cancel_reservation { reservation_id := some 99 } bookedSlotState =
      (successMsg "Reservation cancelled successfully", bookedSlotState) ∧
    (successMsg "Reservation cancelled successfully").status = "success" ∧
    ¬ ((successMsg "Reservation cancelled successfully").status = "error") :=
  ⟨rfl, rfl, by decide⟩

/-- C2: the claim says check_availability sums party sizes only over
non-cancelled reservations, so cancelling frees the cancelled party.  The
code filters the slot on restaurant, date and time only (`tools.py` lines
120-125), with no condition on status: after cancelling the four-person
booking the record stays in the store with status cancelled, yet the
remaining capacity is still 6, not 10. -/
theorem check_availability_counts_cancelled_eval :
    (cancel_reservation { reservation_id := some 1 } bookedSlotState).2.reservations =
      [{ fourSeatBooking with status := "cancelled" }] ∧
    check_availability availParams bookedSlotState =
      successData (.availability true 6 10) ∧
    check_availability availParams
        (cancel_reservation { reservation_id := some 1 } bookedSlotState).2 =
      successData (.availability true 6 10) :=
  ⟨rfl, rfl, rfl⟩

def alice : User :=
  { id := 1, name := "Alice", email := "alice@example.com", phone := "555-0100" }

def aliceOnlyState : FileStorageState := { users := [alice] }

/-- C4: the claim says update_user_preferences returns success and replaces
the profile wholesale; FileStorage defines no update_user method, so the call
at `tools.py` line 247 raises AttributeError, the handler catches it, returns
an error envelope, and the store is untouched — even though the user lookup
succeeded. -/
theorem update_user_preferences_always_errors :
    get_user aliceOnlyState 1 = some alice ∧
    update_user_preferences
        { user_id := some 1, preferences := some { cuisine_preference := some "Italian" } }
        aliceOnlyState =
      (errorMsg "FileStorage object has no attribute update_user", aliceOnlyState) :=
  ⟨rfl, rfl⟩

/-- C9: the claim says an empty resolved profile yields the top-limit
restaurants by rating.  With two (or more) restaurants the guard
`not self.restaurant_vectors` at `recommender.py` line 64 evaluates the
truthiness of a 2-row scipy sparse matrix, which raises ValueError; the
dispatcher converts it into an error envelope and no recommendation list is
ever produced.  Evaluation of the code at that failing input. -/
theorem get_recommendations_sparse_truthiness_eval :
    (initRegistry [bistro, sakura] []).restaurant_vectors =
      some { rows := 2, cols := 8, nnz := 8 } ∧
    execute_tool "get_recommendations" {} (initRegistry [bistro, sakura] []) =
      (errorMsg "The truth value of an array with more than one element is ambiguous. Use a.any() or a.all().",
       initRegistry [bistro, sakura] []) :=
  ⟨rfl, rfl⟩

/-- C1 (amended): starting from a registry over any restaurants and users
with no reservations, after any sequence of Action Registry invocations in
which every make_reservation call supplies a nonnegative party size, the sum
of confirmed party sizes at every slot stays within the capacity of the
restaurant its id resolves to. -/
theorem capacity_invariant_with_nonneg_parties (restaurants : List Restaurant)
    (users : List User) (acts : List RegistryAction)
    (hacts : ∀ a ∈ acts, partyFieldNonneg a)
    (rid : Int) (r : Restaurant) (d t : String)
    (hres : get_restaurant (runActions acts (initRegistry restaurants users)).storage rid = some r) :
    confirmedSum (runActions acts (initRegistry restaurants users)).storage.reservations rid d t
      ≤ (r.capacity : Int) :=
  (runActions_preserves acts (initRegistry restaurants users) hacts
    (initRegistry_inv restaurants users)).2 rid r d t hres

def negativePartyParams : Params :=
  { restaurant_id := some 1, user_id := some 7, date := some "2024-06-01",
    time := some "19:00", party_size := some (-5) }

def oversizedPartyParams : Params :=
  { restaurant_id := some 1, user_id := some 7, date := some "2024-06-01",
    time := some "19:00", party_size := some 15 }

/-- Booking sequence that defeats the capacity invariant: a negative-size
booking is accepted (the availability comparison 10 - 0 >= -5 holds), then
cancelled; the cancelled record keeps its -5 in the status-blind slot sum, so
a 15-person booking passes the check 10 - (-5) >= 15 on the capacity-10
restaurant. -/
def overbookActs : List RegistryAction :=
  [⟨"make_reservation", negativePartyParams⟩,
   ⟨"cancel_reservation", { reservation_id := some 1 }⟩,
   ⟨"make_reservation", oversizedPartyParams⟩]

/-- C1 (counterexample): the invariant as claimed fails on the code — after
the sequence above the confirmed sum at the slot is 15 while the capacity of
the restaurant id 1 resolves to is 10. -/
theorem capacity_invariant_counterexample :
    get_restaurant (runActions overbookActs (initRegistry [bistro] [])).storage 1 = some bistro ∧
    confirmedSum (runActions overbookActs (initRegistry [bistro] [])).storage.reservations
      1 "2024-06-01" "19:00" = 15 ∧
    bistro.capacity = 10 ∧ ¬ ((15 : Int) ≤ (10 : Int)) :=
  ⟨rfl, rfl, rfl, by decide⟩

def threePartyParams : Params :=
  { restaurant_id := some 1, user_id := some 7, date := some "2024-06-01",
    time := some "19:00", party_size := some 3 }

def eightPartyParams : Params :=
  { restaurant_id := some 1, user_id := some 8, date := some "2024-06-01",
    time := some "19:00", party_size := some 8 }

def tameActs : List RegistryAction :=
  [⟨"make_reservation", threePartyParams⟩,
   ⟨"make_reservation", eightPartyParams⟩,
   ⟨"cancel_reservation", { reservation_id := some 1 }⟩]

theorem capacity_invariant_with_nonneg_parties_witness :
    (∀ a ∈ tameActs, partyFieldNonneg a) ∧
    confirmedSum (runActions tameActs (initRegistry [bistro] [])).storage.reservations
      1 "2024-06-01" "19:00" ≤ (bistro.capacity : Int) := by
  have hacts : ∀ a ∈ tameActs, partyFieldNonneg a := by
    intro a ha
    fin_cases ha
    · intro _ v hv
      simp [threePartyParams] at hv
      omega
    · intro _ v hv
      simp [eightPartyParams] at hv
      omega
    · intro h
      exact absurd h (by decide)
  exact ⟨hacts, capacity_invariant_with_nonneg_parties [bistro] [] tameActs hacts
    1 bistro "2024-06-01" "19:00" (by rfl)⟩

/-- C6 (amended): when the extracted directive truthily parses and names a
tool outside the registry, the orchestrator dispatches it, the registry
returns an error envelope naming the tool, and the user receives the rendered
error reply — not the raw model text. -/
theorem unknown_action_error_reply (llm : String) (st : RegistryState)
    (j : Json) (kvs : List (String × Json)) (t : String)
    (hx : extract_tool_call llm = some j)
    (htr : jsonTruthy j = true)
    (htool : jsonGetItem j "tool" = .ok (.str t))
    (hpar : jsonGetItem j "parameters" = .ok (.obj kvs))
    (hunk : t ∉ registryNames) :
    process_message_reply llm st =
      .ok ("I apologize, but I encountered an error: Tool " ++ t ++ " not found", st) := by
  simp only [registryNames, List.mem_cons, List.mem_singleton, not_or] at hunk
  obtain ⟨h1, h2, h3, h4, h5, h6, h7, h8⟩ := hunk
  unfold process_message_reply
  rw [hx]
  simp only [htr, if_true, htool, hpar]
  unfold execute_tool
  simp [h1, h2, h3, h4, h5, h6, h7, h8.1, format_tool_response, errorMsg]
  rw [← String.append_assoc, ← String.append_assoc]
  rfl

def unknownToolText : String :=
  "TOOL_CALL: \x7b\"tool\": \"foo\", \"parameters\": \x7b\x7d\x7d"

/-- C6 (counterexample): the claim as stated — that the user receives the raw
model text — is false: for a directive naming the unregistered action foo the
final reply is the rendered error message, which differs from the model
output. -/
theorem unknown_action_counterexample :
    process_message_reply unknownToolText (initRegistry [] []) =
      .ok ("I apologize, but I encountered an error: Tool foo not found",
        initRegistry [] []) ∧
    "I apologize, but I encountered an error: Tool foo not found" ≠ unknownToolText :=
  ⟨rfl, by decide⟩

def unknownToolTextBar : String :=
  "TOOL_CALL: \x7b\"tool\": \"bar\", \"parameters\": \x7b\x7d\x7d"

theorem unknown_action_error_reply_witness :
    (extract_tool_call unknownToolTextBar = some (Json.obj [("tool", Json.str "bar"),
        ("parameters", Json.obj [])]) ∧
      "bar" ∉ registryNames) ∧
    process_message_reply unknownToolTextBar (initRegistry [] []) =
      .ok ("I apologize, but I encountered an error: Tool " ++ "bar" ++ " not found",
        initRegistry [] []) :=
  ⟨⟨rfl, by decide⟩,
   unknown_action_error_reply unknownToolTextBar (initRegistry [] [])
     (Json.obj [("tool", Json.str "bar"), ("parameters", Json.obj [])])
     [] "bar" rfl rfl rfl rfl (by decide)⟩

/-- C7: when the model output contains the directive label but the extracted
payload fails to decode as JSON, process_message returns the model text
verbatim, exactly as if no directive were present. -/
theorem unparsable_directive_raw_reply (llm : String) (st : RegistryState)
    (a b : String) (rest : List String)
    (hsplit : pySplit llm "TOOL_CALL:" = a :: b :: rest)
    (hparse : json_loads (pyStrip ((pySplit b "\n").headD "")) = none) :
    process_message_reply llm st = .ok (llm, st) := by
  have hx : extract_tool_call llm = none := by
    unfold extract_tool_call
    rw [hsplit]
    exact hparse
  unfold process_message_reply
  rw [hx]

def unparsableDirectiveText : String :=
  "Let me check TOOL_CALL: \x7bnot valid json\nmore text"

theorem unparsable_directive_raw_reply_witness :
    (pySplit unparsableDirectiveText "TOOL_CALL:" =
        ["Let me check ", " \x7bnot valid json\nmore text"] ∧
      json_loads (pyStrip ((pySplit " \x7bnot valid json\nmore text" "\n").headD "")) = none) ∧
    process_message_reply unparsableDirectiveText (initRegistry [] []) =
      .ok (unparsableDirectiveText, initRegistry [] []) :=
  ⟨⟨rfl, rfl⟩,
   unparsable_directive_raw_reply unparsableDirectiveText (initRegistry [] [])
     "Let me check " " \x7bnot valid json\nmore text" [] rfl rfl⟩

def sevenOnSixParams : Params :=
  { restaurant_id := some 1, user_id := some 9, date := some "2024-06-01",
    time := some "19:00", party_size := some 7 }

theorem make_reservation_full_slot_witness :
    (parseableDateTime "2024-06-01" "19:00" = true ∧
      get_restaurant bookedSlotState 1 = some bistro ∧
      (bistro.capacity : Int) - slotSum bookedSlotState.reservations 1 "2024-06-01" "19:00" < 7) ∧
    make_reservation sevenOnSixParams bookedSlotState =
      (check_availability sevenOnSixParams bookedSlotState, bookedSlotState) ∧
    check_availability sevenOnSixParams bookedSlotState =
      successData (.availability false
        ((bistro.capacity : Int) - slotSum bookedSlotState.reservations 1 "2024-06-01" "19:00")
        bistro.capacity) :=
  ⟨⟨rfl, rfl, by decide⟩,
   make_reservation_full_slot_returns_availability bookedSlotState sevenOnSixParams
     1 9 7 "2024-06-01" "19:00" bistro rfl rfl rfl rfl rfl (by decide) rfl rfl (by decide)⟩

def ghostUserParams : Params :=
  { restaurant_id := some 1, user_id := some 42, date := some "2024-06-01",
    time := some "19:00", party_size := some 4 }

def noUsersState : FileStorageState := { restaurants := [bistro] }

theorem make_reservation_no_user_check_witness :
    ((∀ u ∈ noUsersState.users, u.id ≠ 42) ∧
      get_restaurant noUsersState 1 = some bistro ∧
      (4 : Int) ≤ (bistro.capacity : Int) - slotSum noUsersState.reservations 1 "2024-06-01" "19:00") ∧
    make_reservation ghostUserParams noUsersState =
      (successData (.reservationMade
          { id := nextReservationId noUsersState, restaurant_id := 1, user_id := 42,
            date := "2024-06-01", time := "19:00", party_size := 4, status := "confirmed",
            special_requests := ghostUserParams.special_requests.getD "" }
          { restaurant_id := 1, user_id := 42, date := "2024-06-01", time := "19:00",
            party_size := 4, status := "confirmed",
            special_requests := ghostUserParams.special_requests.getD "" }),
       { noUsersState with reservations := noUsersState.reservations ++
          [{ id := nextReservationId noUsersState, restaurant_id := 1, user_id := 42,
             date := "2024-06-01", time := "19:00", party_size := 4, status := "confirmed",
             special_requests := ghostUserParams.special_requests.getD "" }] }) :=
  ⟨⟨by decide, rfl, by decide⟩,
   make_reservation_no_user_check noUsersState ghostUserParams
     1 42 4 "2024-06-01" "19:00" bistro rfl rfl rfl rfl rfl (by decide) rfl rfl
     (by decide) (by decide)⟩
